import Mathlib

set_option linter.unusedVariables false

/-!
Shallow embedding of the Flask REST API in `src/app.py` of the
4GeeksAcademy/PabloBalle-SW-Rest-API repository.

The repository's `models.py` (entity classes `User`, `People`, `Vehicles`,
`Planets`, `Favorites` and their serialization methods) and `utils.py`
(`APIException`) are imported by `src/app.py` but are not part of the
source tree given; those parts are modelled from the specification
(spec.md §3 "Data Model", §4.2 "Serialization", §4.3 "Error Taxonomy").
Every request handler below is translated line by line from `src/app.py`.

A handler takes the parameters its Python `def` declares and the current
database state and returns either a JSON response with a status code, or
an error: either the single typed `APIException` (caught by the
process-wide handler `handle_invalid_usage`) or an untyped fault (an
uncaught Python exception). Mutating handlers also return the post-state
of the database.

Flask's dispatch invokes a view function with every path variable its
route captures, passed as a keyword argument, and CPython rejects a call
carrying a keyword the function does not declare by raising `TypeError`
before the body runs. Four routes capture a `user_id` variable that
their view functions do not declare (`get_favorites` at app.py line 109,
`post_or_delete_favorite_person` at line 115,
`post_or_delete_favorite_vehicle` at line 131,
`post_or_delete_favorite_planet` at line 147); the `dispatch_...`
definitions model the keyword-binding step for those routes. Every other
view function declares exactly the variables its route captures, so for
them the binding succeeds and dispatch reduces to the handler itself;
those handlers are modelled directly.
-/

/-- A JSON-compatible value, the codomain of entity serialization. -/
inductive Json where
  | null : Json
  | num : Nat → Json
  | str : String → Json
  | bool : Bool → Json
  | arr : List Json → Json
  | obj : List (String × Json) → Json
deriving Repr

/-- Look a key up among the fields of a JSON object; `none` on non-objects. -/
def Json.objGet : Json → String → Option Json
  | Json.obj fields, k => (fields.find? (fun p => p.1 == k)).map Prod.snd
  | _, _ => none

/-- Serialize an optional foreign key: `none` becomes JSON `null`. -/
def optNum : Option Nat → Json
  | none => Json.null
  | some n => Json.num n

/-- Modelled from the spec: `utils.py` is missing from the source tree.
Spec §4.3: a single typed error, "API exception", carrying a
human-readable message and an HTTP status code (default 400). -/
structure APIException where
  message : String
  status_code : Nat := 400
deriving DecidableEq, Repr

/-- Modelled from the spec: `utils.py` is missing from the source tree.
Spec §4.3: the process-wide handler "serializes it as
`{message, status_code: ...}`". -/
def APIException.to_dict (e : APIException) : Json :=
  Json.obj [("message", Json.str e.message), ("status_code", Json.num e.status_code)]

/-- An error escaping a handler: either the typed `APIException`, or an
untyped Python fault (e.g. `AttributeError` from dereferencing `None`). -/
inductive Err where
  | api : APIException → Err
  | fault : String → Err
deriving DecidableEq, Repr

/-- Result of one handler invocation: a JSON body with an HTTP status, or
an escaping error. -/
abbrev HResult := Except Err (Json × Nat)

/-- The untyped fault raised when `.serialize()` is dereferenced on the
`None` returned by a failed primary-key lookup. -/
def noneSerializeFault : Err :=
  Err.fault "AttributeError: NoneType object has no attribute serialize"

/-- Modelled from the spec: `models.py` is missing from the source tree.
Spec §3: User is an identity record with numeric id, email, password and
an active flag. -/
structure User where
  id : Nat
  email : String
  password : String
  is_active : Bool
deriving DecidableEq, Repr

/-- Modelled from the spec: spec §4.2, serialization is the mapping of
each attribute, primary key always included. -/
def User.serialize (u : User) : Json :=
  Json.obj [("id", Json.num u.id), ("email", Json.str u.email),
            ("password", Json.str u.password), ("is_active", Json.bool u.is_active)]

/-- Modelled from the spec: spec §9 notes two method names are used
inconsistently for the one serialization capability; `to_json` is the
name `get_users` calls. -/
def User.to_json (u : User) : Json := u.serialize

/-- Modelled from the spec: `models.py` is missing from the source tree.
Spec §3: People is a reference entity with a numeric id as primary key,
a name and descriptive fields. -/
structure People where
  id : Nat
  name : String
deriving DecidableEq, Repr

/-- Modelled from the spec: spec §4.2, attribute mapping with the primary
key included. -/
def People.serialize (p : People) : Json :=
  Json.obj [("id", Json.num p.id), ("name", Json.str p.name)]

/-- Modelled from the spec: the (misspelled) serialization method that
`get_people` calls on each row. -/
def People.to_jason (p : People) : Json := p.serialize

/-- Modelled from the spec: `models.py` is missing from the source tree.
Spec §3: Vehicles is a reference entity with a numeric id as primary key,
a name and descriptive fields. -/
structure Vehicles where
  id : Nat
  name : String
deriving DecidableEq, Repr

/-- Modelled from the spec: spec §4.2, attribute mapping with the primary
key included. -/
def Vehicles.serialize (v : Vehicles) : Json :=
  Json.obj [("id", Json.num v.id), ("name", Json.str v.name)]

/-- Modelled from the spec: the (misspelled) serialization method that
`get_vehicles` calls on each row. -/
def Vehicles.to_jason (v : Vehicles) : Json := v.serialize

/-- Modelled from the spec: `models.py` is missing from the source tree.
Spec §3: Planets is a reference entity with a numeric id as primary key,
a name and descriptive fields. -/
structure Planets where
  id : Nat
  name : String
deriving DecidableEq, Repr

/-- Modelled from the spec: spec §4.2, attribute mapping with the primary
key included. -/
def Planets.serialize (p : Planets) : Json :=
  Json.obj [("id", Json.num p.id), ("name", Json.str p.name)]

/-- Modelled from the spec: the (misspelled) serialization method that
`get_planets` calls on each row. -/
def Planets.to_jason (p : Planets) : Json := p.serialize

/-- Modelled from the spec: `models.py` is missing from the source tree.
Spec §3: Favorites has a numeric id (primary key) and optional
`people_id`, `vehicles_id`, `planets_id` foreign keys. -/
structure Favorites where
  id : Nat
  people_id : Option Nat
  vehicles_id : Option Nat
  planets_id : Option Nat
deriving DecidableEq, Repr

/-- Modelled from the spec: spec §4.2, "Favorites serialization returns
raw foreign-key ids, not expanded objects", primary key included. -/
def Favorites.serialize (f : Favorites) : Json :=
  Json.obj [("id", Json.num f.id), ("people_id", optNum f.people_id),
            ("vehicles_id", optNum f.vehicles_id), ("planets_id", optNum f.planets_id)]

/-- Modelled from the spec: spec §9 notes two method names are used
inconsistently; `to_json` is the name `get_favorites` calls. -/
def Favorites.to_json (f : Favorites) : Json := f.serialize

/-- The persisted relational state: one table per entity (spec §3), plus
the next auto-assigned Favorites primary key (spec §4.1: "Create ...
auto-assigns the primary key"). -/
structure DB where
  users : List User
  people : List People
  vehicles : List Vehicles
  planets : List Planets
  favorites : List Favorites
  nextFavId : Nat
deriving DecidableEq, Repr

/-- `Model.query.get(pk)`: primary-key lookup on the favorites table,
`none` when no row has that primary key. -/
def favoritesGet (rows : List Favorites) (pk : Nat) : Option Favorites :=
  rows.find? (fun f => f.id == pk)

/-- `User.query.get(pk)`: primary-key lookup on the users table. -/
def usersGet (rows : List User) (pk : Nat) : Option User :=
  rows.find? (fun u => u.id == pk)

/-- `People.query.get(pk)`: primary-key lookup on the people table. -/
def peopleGet (rows : List People) (pk : Nat) : Option People :=
  rows.find? (fun p => p.id == pk)

/-- `Vehicles.query.get(pk)`: primary-key lookup on the vehicles table. -/
def vehiclesGet (rows : List Vehicles) (pk : Nat) : Option Vehicles :=
  rows.find? (fun v => v.id == pk)

/-- `Planets.query.get(pk)`: primary-key lookup on the planets table. -/
def planetsGet (rows : List Planets) (pk : Nat) : Option Planets :=
  rows.find? (fun p => p.id == pk)

/-- The HTTP method of a favorites sub-route request. -/
inductive Method where
  | POST : Method
  | DELETE : Method
deriving DecidableEq, Repr

/-- app.py lines 67-75: the `@app.errorhandler(APIException)` function
`handle_invalid_usage`: `return jsonify(error.to_dict()), error.status_code`. -/
def handle_invalid_usage (error : APIException) : Json × Nat :=
  (error.to_dict, error.status_code)

/-- The process-wide error interception layer: a raised `APIException` is
turned into the JSON response of `handle_invalid_usage`; any untyped
fault escapes to the framework (spec §4.3: "Uncaught errors of any other
kind are not specified"). -/
def respond (r : HResult) : Except String (Json × Nat) :=
  match r with
  | Except.ok x => Except.ok x
  | Except.error (Err.api e) => Except.ok (handle_invalid_usage e)
  | Except.error (Err.fault m) => Except.error m

/-- app.py lines 91-99, `get_users`: `users = User.query.all();
return [user.to_json() for user in users], 200`. -/
def get_users (db : DB) : Json × Nat :=
  (Json.arr (db.users.map User.to_json), 200)

/-- app.py lines 102-105, `get_single_user`:
`user = User.query.get(user_id); return jsonify(user.serialize()), 200`.
No presence check: when the lookup is `None`, `.serialize()` raises an
`AttributeError`, an untyped fault. -/
def get_single_user (user_id : Nat) (db : DB) : HResult :=
  match usersGet db.users user_id with
  | none => Except.error noneSerializeFault
  | some user => Except.ok (user.serialize, 200)

/-- app.py lines 108-111, `get_favorites`: declared as
`def get_favorites():`, with no parameters even though its route
captures a user_id; the body is `favorites = Favorites.query.all();
return [favorite.to_json() for favorite in favorites], 200`. -/
def get_favorites (db : DB) : Json × Nat :=
  (Json.arr (db.favorites.map Favorites.to_json), 200)

/-- app.py lines 114-127, `post_or_delete_favorite_person`: declared as
`def post_or_delete_favorite_person(person_id):`, without the user_id
its route also captures.
POST: `favorite = Favorites(people_id=person_id)`, add, commit, return
its serialization with 200. DELETE: `favorite =
Favorites.query.get(person_id)`; if `None`, raise
`APIException('User not found', status_code=404)` (before any session
mutation); else delete the row, commit, return its serialization with
200. -/
def post_or_delete_favorite_person (method : Method) (person_id : Nat)
    (db : DB) : HResult × DB :=
  match method with
  | Method.POST =>
    let favorite : Favorites :=
      { id := db.nextFavId, people_id := some person_id,
        vehicles_id := none, planets_id := none }
    let db2 : DB :=
      { db with favorites := db.favorites ++ [favorite], nextFavId := db.nextFavId + 1 }
    (Except.ok (favorite.serialize, 200), db2)
  | Method.DELETE =>
    match favoritesGet db.favorites person_id with
    | none =>
      (Except.error (Err.api { message := "User not found", status_code := 404 }), db)
    | some favorite =>
      let db2 : DB :=
        { db with favorites := db.favorites.filter (fun g => g.id ≠ favorite.id) }
      (Except.ok (favorite.serialize, 200), db2)

/-- app.py lines 130-143, `post_or_delete_favorite_vehicle`: declared as
`def post_or_delete_favorite_vehicle(vehicle_id):`, without the user_id
its route also captures; the body has the same shape as the person
route, with `vehicles_id`. -/
def post_or_delete_favorite_vehicle (method : Method) (vehicle_id : Nat)
    (db : DB) : HResult × DB :=
  match method with
  | Method.POST =>
    let favorite : Favorites :=
      { id := db.nextFavId, people_id := none,
        vehicles_id := some vehicle_id, planets_id := none }
    let db2 : DB :=
      { db with favorites := db.favorites ++ [favorite], nextFavId := db.nextFavId + 1 }
    (Except.ok (favorite.serialize, 200), db2)
  | Method.DELETE =>
    match favoritesGet db.favorites vehicle_id with
    | none =>
      (Except.error (Err.api { message := "User not found", status_code := 404 }), db)
    | some favorite =>
      let db2 : DB :=
        { db with favorites := db.favorites.filter (fun g => g.id ≠ favorite.id) }
      (Except.ok (favorite.serialize, 200), db2)

/-- app.py lines 146-159, `post_or_delete_favorite_planet`: declared as
`def post_or_delete_favorite_planet(planet_id):`, without the user_id
its route also captures; the body has the same shape as the person
route, with `planets_id`. -/
def post_or_delete_favorite_planet (method : Method) (planet_id : Nat)
    (db : DB) : HResult × DB :=
  match method with
  | Method.POST =>
    let favorite : Favorites :=
      { id := db.nextFavId, people_id := none,
        vehicles_id := none, planets_id := some planet_id }
    let db2 : DB :=
      { db with favorites := db.favorites ++ [favorite], nextFavId := db.nextFavId + 1 }
    (Except.ok (favorite.serialize, 200), db2)
  | Method.DELETE =>
    match favoritesGet db.favorites planet_id with
    | none =>
      (Except.error (Err.api { message := "User not found", status_code := 404 }), db)
    | some favorite =>
      let db2 : DB :=
        { db with favorites := db.favorites.filter (fun g => g.id ≠ favorite.id) }
      (Except.ok (favorite.serialize, 200), db2)

/-- app.py lines 162-165, `get_people`: `people = People.query.all();
return [person.to_jason() for person in people], 200`. -/
def get_people (db : DB) : Json × Nat :=
  (Json.arr (db.people.map People.to_jason), 200)

/-- app.py lines 168-171, `get_single_person`: primary-key lookup with
no presence check; `None.serialize()` is an untyped fault. -/
def get_single_person (person_id : Nat) (db : DB) : HResult :=
  match peopleGet db.people person_id with
  | none => Except.error noneSerializeFault
  | some person => Except.ok (person.serialize, 200)

/-- app.py lines 174-177, `get_vehicles`: `vehicles = Vehicles.query.all();
return [vehicle.to_jason() for vehicle in vehicles], 200`. -/
def get_vehicles (db : DB) : Json × Nat :=
  (Json.arr (db.vehicles.map Vehicles.to_jason), 200)

/-- app.py lines 180-183, `get_single_vehicle`: primary-key lookup with
no presence check; `None.serialize()` is an untyped fault. -/
def get_single_vehicle (vehicle_id : Nat) (db : DB) : HResult :=
  match vehiclesGet db.vehicles vehicle_id with
  | none => Except.error noneSerializeFault
  | some vehicle => Except.ok (vehicle.serialize, 200)

/-- app.py lines 186-189, `get_planets`: `planets = Planets.query.all();
return [planet.to_jason() for planet in planets], 200`. -/
def get_planets (db : DB) : Json × Nat :=
  (Json.arr (db.planets.map Planets.to_jason), 200)

/-- app.py lines 192-195, `get_single_planet`: primary-key lookup with
no presence check; `None.serialize()` is an untyped fault. -/
def get_single_planet (planet_id : Nat) (db : DB) : HResult :=
  match planetsGet db.planets planet_id with
  | none => Except.error noneSerializeFault
  | some planet => Except.ok (planet.serialize, 200)

/-- CPython keyword-argument binding: a call binds exactly when every
keyword passed names a declared parameter and every declared parameter
is supplied; otherwise the call raises `TypeError` before the function
body runs. -/
def kwargsAccepted (declared captured : List String) : Bool :=
  captured.all (fun k => declared.contains k) &&
    declared.all (fun p => captured.contains p)

/-- The untyped `TypeError` CPython raises when a call passes a keyword
argument the function does not declare. -/
def unexpectedKwargFault (fname kw : String) : Err :=
  Err.fault ("TypeError: " ++ fname ++ "() got an unexpected keyword argument " ++ kw)

/-- Flask dispatch for GET /users/<int:user_id>/favorites (app.py lines
108-109): the route captures user_id and dispatch passes it as a keyword
argument, but `def get_favorites():` declares no parameter, so the call
raises TypeError before the body runs; the fault is not an APIException,
so the errorhandler does not intercept it. -/
def dispatch_get_favorites (user_id : Nat) (db : DB) : HResult :=
  if kwargsAccepted [] ["user_id"] then
    Except.ok (get_favorites db)
  else
    Except.error (unexpectedKwargFault "get_favorites" "user_id")

/-- Flask dispatch for /users/<int:user_id>/favorites/people/<int:person_id>
(app.py lines 114-115): the route captures user_id and person_id, but
`def post_or_delete_favorite_person(person_id):` declares only
person_id, so every request raises TypeError before the handler body and
the database is untouched. -/
def dispatch_favorite_person (method : Method) (user_id person_id : Nat)
    (db : DB) : HResult × DB :=
  if kwargsAccepted ["person_id"] ["user_id", "person_id"] then
    post_or_delete_favorite_person method person_id db
  else
    (Except.error (unexpectedKwargFault "post_or_delete_favorite_person" "user_id"), db)

/-- Flask dispatch for /users/<int:user_id>/favorites/vehicles/<int:vehicle_id>
(app.py lines 130-131): `def post_or_delete_favorite_vehicle(vehicle_id):`
declares only vehicle_id while the route also captures user_id, so every
request raises TypeError before the handler body. -/
def dispatch_favorite_vehicle (method : Method) (user_id vehicle_id : Nat)
    (db : DB) : HResult × DB :=
  if kwargsAccepted ["vehicle_id"] ["user_id", "vehicle_id"] then
    post_or_delete_favorite_vehicle method vehicle_id db
  else
    (Except.error (unexpectedKwargFault "post_or_delete_favorite_vehicle" "user_id"), db)

/-- Flask dispatch for /users/<int:user_id>/favorites/planets/<int:planet_id>
(app.py lines 146-147): `def post_or_delete_favorite_planet(planet_id):`
declares only planet_id while the route also captures user_id, so every
request raises TypeError before the handler body. -/
def dispatch_favorite_planet (method : Method) (user_id planet_id : Nat)
    (db : DB) : HResult × DB :=
  if kwargsAccepted ["planet_id"] ["user_id", "planet_id"] then
    post_or_delete_favorite_planet method planet_id db
  else
    (Except.error (unexpectedKwargFault "post_or_delete_favorite_planet" "user_id"), db)

/-- An empty database state. -/
def dbEmpty : DB :=
  { users := [], people := [], vehicles := [], planets := [],
    favorites := [], nextFavId := 1 }

/-- C7: every raised APIException is intercepted by the process-wide
handler; the response is a JSON body carrying the message and the status
code, and the HTTP status equals the exception's status code. -/
theorem api_exception_intercepted (e : APIException) :
    respond (Except.error (Err.api e))
      = Except.ok (handle_invalid_usage e) ∧
    handle_invalid_usage e = (e.to_dict, e.status_code) ∧
    Json.objGet e.to_dict "message" = some (Json.str e.message) ∧
    Json.objGet e.to_dict "status_code" = some (Json.num e.status_code) := by
  refine ⟨rfl, rfl, ?_, ?_⟩ <;> simp [APIException.to_dict, Json.objGet]

/-- C8: the four list endpoints each return 200 with the array of
serialized rows of their table, whose length is the table's row count. -/
theorem list_endpoints_return_all_rows (db : DB) :
    (∃ l, get_users db = (Json.arr l, 200) ∧ l = db.users.map User.to_json
      ∧ l.length = db.users.length) ∧
    (∃ l, get_people db = (Json.arr l, 200) ∧ l = db.people.map People.to_jason
      ∧ l.length = db.people.length) ∧
    (∃ l, get_vehicles db = (Json.arr l, 200) ∧ l = db.vehicles.map Vehicles.to_jason
      ∧ l.length = db.vehicles.length) ∧
    (∃ l, get_planets db = (Json.arr l, 200) ∧ l = db.planets.map Planets.to_jason
      ∧ l.length = db.planets.length) := by
  refine ⟨⟨_, rfl, rfl, by simp⟩, ⟨_, rfl, rfl, by simp⟩,
          ⟨_, rfl, rfl, by simp⟩, ⟨_, rfl, rfl, by simp⟩⟩

/-- C3: a GET to a by-id endpoint with an id matching no row dereferences
the absent lookup result and faults with an untyped error; it never
raises the typed APIException and never returns any response, in
particular no 404. -/
theorem get_by_id_absent_untyped_fault (uid pid vid plid : Nat) (db : DB)
    (hu : ∀ u ∈ db.users, u.id ≠ uid)
    (hp : ∀ p ∈ db.people, p.id ≠ pid)
    (hv : ∀ v ∈ db.vehicles, v.id ≠ vid)
    (hq : ∀ q ∈ db.planets, q.id ≠ plid) :
    (get_single_user uid db = Except.error noneSerializeFault ∧
      (∀ e, get_single_user uid db ≠ Except.error (Err.api e)) ∧
      ∀ body code, get_single_user uid db ≠ Except.ok (body, code)) ∧
    (get_single_person pid db = Except.error noneSerializeFault ∧
      (∀ e, get_single_person pid db ≠ Except.error (Err.api e)) ∧
      ∀ body code, get_single_person pid db ≠ Except.ok (body, code)) ∧
    (get_single_vehicle vid db = Except.error noneSerializeFault ∧
      (∀ e, get_single_vehicle vid db ≠ Except.error (Err.api e)) ∧
      ∀ body code, get_single_vehicle vid db ≠ Except.ok (body, code)) ∧
    (get_single_planet plid db = Except.error noneSerializeFault ∧
      (∀ e, get_single_planet plid db ≠ Except.error (Err.api e)) ∧
      ∀ body code, get_single_planet plid db ≠ Except.ok (body, code)) := by
  have hu2 : usersGet db.users uid = none := by
    unfold usersGet; rw [List.find?_eq_none]; intro u hm; simpa using hu u hm
  have hp2 : peopleGet db.people pid = none := by
    unfold peopleGet; rw [List.find?_eq_none]; intro p hm; simpa using hp p hm
  have hv2 : vehiclesGet db.vehicles vid = none := by
    unfold vehiclesGet; rw [List.find?_eq_none]; intro v hm; simpa using hv v hm
  have hq2 : planetsGet db.planets plid = none := by
    unfold planetsGet; rw [List.find?_eq_none]; intro q hm; simpa using hq q hm
  refine ⟨⟨?_, ?_, ?_⟩, ⟨?_, ?_, ?_⟩, ⟨?_, ?_, ?_⟩, ⟨?_, ?_, ?_⟩⟩ <;>
    simp [get_single_user, get_single_person, get_single_vehicle, get_single_planet,
          hu2, hp2, hv2, hq2, noneSerializeFault]

/-- C3 witness: on the empty database every by-id GET faults untyped. -/
theorem get_by_id_absent_untyped_fault_witness :
    get_single_user 1 dbEmpty = Except.error noneSerializeFault ∧
    get_single_person 1 dbEmpty = Except.error noneSerializeFault ∧
    get_single_vehicle 1 dbEmpty = Except.error noneSerializeFault ∧
    get_single_planet 1 dbEmpty = Except.error noneSerializeFault := by
  have h := get_by_id_absent_untyped_fault 1 1 1 1 dbEmpty
    (by simp [dbEmpty]) (by simp [dbEmpty]) (by simp [dbEmpty]) (by simp [dbEmpty])
  exact ⟨h.1.1, h.2.1.1, h.2.2.1.1, h.2.2.2.1⟩

/-- C1: contrary to the claim, a DELETE to
/users/{id}/favorites/people/{pid} never yields the typed 404: dispatch
rejects the unexpected user_id keyword with an untyped TypeError before
the handler body runs, the typed APIException is never raised, and no
JSON response (404 or otherwise) is produced. -/
theorem delete_favorite_person_route_faults (uid pid : Nat) (db : DB) :
    dispatch_favorite_person Method.DELETE uid pid db
      = (Except.error (unexpectedKwargFault "post_or_delete_favorite_person" "user_id"), db) ∧
    (∀ e, (dispatch_favorite_person Method.DELETE uid pid db).1
      ≠ Except.error (Err.api e)) ∧
    ∀ body code, respond (dispatch_favorite_person Method.DELETE uid pid db).1
      ≠ Except.ok (body, code) := by
  have hb : kwargsAccepted ["person_id"] ["user_id", "person_id"] = false := by decide
  refine ⟨rfl, ?_, ?_⟩ <;>
    simp [dispatch_favorite_person, hb, respond, unexpectedKwargFault]

/-- C2: the claimed lookup-and-delete never happens over HTTP: on all
three DELETE favorites sub-routes dispatch faults with TypeError before
the handler body, so no Favorites row is ever looked up or deleted and
the favorites table is unchanged. -/
theorem delete_favorite_routes_never_touch_rows (uid tid : Nat) (db : DB) :
    (dispatch_favorite_person Method.DELETE uid tid db).2.favorites = db.favorites ∧
    (dispatch_favorite_vehicle Method.DELETE uid tid db).2.favorites = db.favorites ∧
    (dispatch_favorite_planet Method.DELETE uid tid db).2.favorites = db.favorites ∧
    (dispatch_favorite_person Method.DELETE uid tid db).1
      = Except.error (unexpectedKwargFault "post_or_delete_favorite_person" "user_id") ∧
    (dispatch_favorite_vehicle Method.DELETE uid tid db).1
      = Except.error (unexpectedKwargFault "post_or_delete_favorite_vehicle" "user_id") ∧
    (dispatch_favorite_planet Method.DELETE uid tid db).1
      = Except.error (unexpectedKwargFault "post_or_delete_favorite_planet" "user_id") :=
  ⟨rfl, rfl, rfl, rfl, rfl, rfl⟩

/-- C4: the POST never succeeds and the favorites GET never lists: both
requests fault with TypeError at dispatch, no Favorites row is inserted,
and no array response is produced. -/
theorem post_then_get_routes_fault (uid uid2 pid : Nat) (db : DB) :
    dispatch_favorite_person Method.POST uid pid db
      = (Except.error (unexpectedKwargFault "post_or_delete_favorite_person" "user_id"), db) ∧
    (dispatch_favorite_person Method.POST uid pid db).2.favorites = db.favorites ∧
    dispatch_get_favorites uid2 (dispatch_favorite_person Method.POST uid pid db).2
      = Except.error (unexpectedKwargFault "get_favorites" "user_id") ∧
    ∀ body code, respond (dispatch_get_favorites uid2
        (dispatch_favorite_person Method.POST uid pid db).2) ≠ Except.ok (body, code) := by
  have hb : kwargsAccepted [] ["user_id"] = false := by decide
  refine ⟨rfl, rfl, rfl, ?_⟩
  simp [dispatch_get_favorites, hb, respond, unexpectedKwargFault]

/-- C5: GET /users/{id}/favorites never returns 200 with the favorites
array: `def get_favorites():` rejects the user_id keyword argument, so
every request faults with an untyped TypeError and no JSON response is
produced. -/
theorem get_favorites_route_faults (uid : Nat) (db : DB) :
    dispatch_get_favorites uid db
      = Except.error (unexpectedKwargFault "get_favorites" "user_id") ∧
    (∀ e, dispatch_get_favorites uid db ≠ Except.error (Err.api e)) ∧
    ∀ body, respond (dispatch_get_favorites uid db) ≠ Except.ok (body, 200) := by
  have hb : kwargsAccepted [] ["user_id"] = false := by decide
  refine ⟨rfl, ?_, ?_⟩ <;>
    simp [dispatch_get_favorites, hb, respond, unexpectedKwargFault]

/-- C6: the round-trip cannot be exercised: the creating POST stores
nothing (dispatch faults with TypeError, state unchanged) and the
subsequent DELETE by any row id faults the same way, leaving the
database exactly as it began. -/
theorem favorite_roundtrip_routes_fault (uid1 uid2 pid tid : Nat) (db : DB) :
    dispatch_favorite_person Method.POST uid1 pid db
      = (Except.error (unexpectedKwargFault "post_or_delete_favorite_person" "user_id"), db) ∧
    dispatch_favorite_person Method.DELETE uid2 tid
        (dispatch_favorite_person Method.POST uid1 pid db).2
      = (Except.error (unexpectedKwargFault "post_or_delete_favorite_person" "user_id"), db) :=
  ⟨rfl, rfl⟩

/-- C9: on the failing-delete path the typed exception is never raised:
the request faults with TypeError at dispatch, and every table of the
database is unchanged only because the handler body never runs. -/
theorem delete_favorite_routes_no_typed_error (uid tid : Nat) (db : DB) :
    (dispatch_favorite_person Method.DELETE uid tid db).2 = db ∧
    (dispatch_favorite_vehicle Method.DELETE uid tid db).2 = db ∧
    (dispatch_favorite_planet Method.DELETE uid tid db).2 = db ∧
    (∀ e, (dispatch_favorite_person Method.DELETE uid tid db).1
      ≠ Except.error (Err.api e)) ∧
    (∀ e, (dispatch_favorite_vehicle Method.DELETE uid tid db).1
      ≠ Except.error (Err.api e)) ∧
    (∀ e, (dispatch_favorite_planet Method.DELETE uid tid db).1
      ≠ Except.error (Err.api e)) := by
  have hbp : kwargsAccepted ["person_id"] ["user_id", "person_id"] = false := by decide
  have hbv : kwargsAccepted ["vehicle_id"] ["user_id", "vehicle_id"] = false := by decide
  have hbq : kwargsAccepted ["planet_id"] ["user_id", "planet_id"] = false := by decide
  refine ⟨rfl, rfl, rfl, ?_, ?_, ?_⟩ <;>
    simp [dispatch_favorite_person, dispatch_favorite_vehicle, dispatch_favorite_planet,
          hbp, hbv, hbq, unexpectedKwargFault]

/-- C10: no POST favorites request ever stores a row: on all three
routes dispatch faults with TypeError and returns the database state
unchanged, so no field of any stored row exists to inspect. -/
theorem post_favorite_routes_store_nothing (uid pid vid plid : Nat) (db : DB) :
    dispatch_favorite_person Method.POST uid pid db
      = (Except.error (unexpectedKwargFault "post_or_delete_favorite_person" "user_id"), db) ∧
    dispatch_favorite_vehicle Method.POST uid vid db
      = (Except.error (unexpectedKwargFault "post_or_delete_favorite_vehicle" "user_id"), db) ∧
    dispatch_favorite_planet Method.POST uid plid db
      = (Except.error (unexpectedKwargFault "post_or_delete_favorite_planet" "user_id"), db) :=
  ⟨rfl, rfl, rfl⟩
